import Mathlib

/-!
Shallow embedding of the ESP32-C3 AT-command driver `src/TPicoESPC3.py`
(class `ESPC3`).  Python byte strings are modelled as `List Nat` (one
entry per byte); Python strings are modelled by their UTF-8 byte
sequences.  The UART transport is modelled by a script: a queue of byte
lists, one entry per `send` attempt, holding the bytes the polling loop
reads during that attempt before the attempt's timeout.  Python
exceptions are modelled with `Except PyErr`; `PyErr` distinguishes the
exception classes the code branches on (`except RuntimeError`,
`except ValueError`).
-/

namespace TPico

abbrev Bytes := List Nat

/-- Byte sequence of an ASCII string literal (one byte per character). -/
def ascii (s : String) : Bytes := s.data.map Char.toNat

def crlf : Bytes := ascii "\r\n"
def okSentinel : Bytes := ascii "OK\r\n"
def errSentinel : Bytes := ascii "ERROR\r\n"

/-- Python `l[-n:]` for byte strings (`response[-4:]`, `response[-7:]`). -/
def lastN (l : Bytes) (n : Nat) : Bytes := l.drop (l.length - n)

/-- Python `l[:-n]` for byte strings (`response[:-4]`, `line[8:-1]`). -/
def dropLastN (l : Bytes) (n : Nat) : Bytes := l.take (l.length - n)

/-- Python `bytes.split(b"\r\n")`: leftmost, non-overlapping split on CRLF. -/
def splitCRLF : Bytes → List Bytes
  | [] => [[]]
  | 13 :: 10 :: rest => [] :: splitCRLF rest
  | b :: rest =>
    match splitCRLF rest with
    | [] => [[b]]
    | c :: cs => (b :: c) :: cs

/-- Python `bytes.split(b",")`. -/
def splitComma : Bytes → List Bytes
  | [] => [[]]
  | 44 :: rest => [] :: splitComma rest
  | b :: rest =>
    match splitComma rest with
    | [] => [[b]]
    | c :: cs => (b :: c) :: cs

def isDigitByte (b : Nat) : Bool := 48 ≤ b && b ≤ 57

def isSpaceByte (b : Nat) : Bool :=
  b == 32 || b == 9 || b == 10 || b == 13 || b == 11 || b == 12

def digitsToNatAux : Bytes → Nat → Option Nat
  | [], acc => some acc
  | b :: rest, acc =>
    if isDigitByte b then digitsToNatAux rest (acc * 10 + (b - 48)) else none

/-- Value of a non-empty all-ASCII-digit byte string. -/
def digitsToNat : Bytes → Option Nat
  | [] => none
  | l => digitsToNatAux l 0

def trimWS (l : Bytes) : Bytes :=
  ((l.dropWhile isSpaceByte).reverse.dropWhile isSpaceByte).reverse

/-- Python `int(bytes)`: optional surrounding ASCII whitespace, optional
sign, then ASCII decimal digits; anything else raises `ValueError`
(modelled as `none`). -/
def pyInt (l : Bytes) : Option Int :=
  match trimWS l with
  | 43 :: rest => (digitsToNat rest).map (fun n => (n : Int))
  | 45 :: rest => (digitsToNat rest).map (fun n => -(n : Int))
  | t => (digitsToNat t).map (fun n => (n : Int))

/-- Python `str.strip` with a double-quote argument: remove every leading and
trailing quote byte. -/
def stripQuotes (l : Bytes) : Bytes :=
  ((l.dropWhile (· == 34)).reverse.dropWhile (· == 34)).reverse

/-- One polling loop of `ESPC3.send` (lines 52-58): read one byte at a
time, appending to `response`, stopping as soon as the buffer ends in
`OK\r\n` or `ERROR\r\n`; `input` is the byte stream the loop reads before
the timeout would expire (exhausting it models the timeout). -/
def readLoop : Bytes → Bytes → Bytes
  | buf, [] => buf
  | buf, b :: rest =>
    let buf2 := buf ++ [b]
    if lastN buf2 4 = okSentinel then buf2
    else if lastN buf2 7 = errSentinel then buf2
    else readLoop buf2 rest

/-- Transport/trace state threaded through the driver: the remaining
script (one entry of available bytes per future `send` attempt), the
bytes written to the UART so far (the consecutive
`uart.write(at); uart.write(CRLF)` pair of one attempt is recorded as the
single list `cmd ++ crlf`), and every `response` buffer examined so far
(one per attempt, the value at the `rx` debug print). -/
structure ST where
  script : List Bytes
  writes : List Bytes
  bufs : List Bytes
deriving DecidableEq, Repr

/-- The retry loop of `ESPC3.send` (lines 43-66); returns `none` when
every attempt ends without the success sentinel (line 67 raises). -/
def sendAttempts (cmd : Bytes) : Nat → ST → Option Bytes × ST
  | 0, st => (none, st)
  | n + 1, st =>
    let buf := readLoop [] (st.script.headD [])
    let st1 : ST := ⟨st.script.tail, st.writes ++ [cmd ++ crlf], st.bufs ++ [buf]⟩
    if lastN buf 4 = okSentinel then (some (dropLastN buf 4), st1)
    else sendAttempts cmd n st1

/-- Model of `ESPC3.send(at, timeout, retries)` (lines 39-67). -/
def sendST (st : ST) (cmd : Bytes) (retries : Nat := 3) : Option Bytes × ST :=
  sendAttempts cmd retries st

lemma infix_concat {l xs : Bytes} {b : Nat} (h : l <:+: xs ++ [b]) :
    l <:+: xs ∨ l <:+ xs ++ [b] := by
  obtain ⟨s, t, hst⟩ := h
  rcases t.eq_nil_or_concat with rfl | ⟨L, c, rfl⟩
  · right
    exact ⟨s, by simpa using hst⟩
  · left
    rw [List.concat_eq_append, ← List.append_assoc] at hst
    obtain ⟨h1, -⟩ := List.append_inj' hst rfl
    exact ⟨s, L, h1⟩

lemma lastN_of_suffix {s l : Bytes} (h : s <:+ l) : lastN l s.length = s := by
  obtain ⟨t, rfl⟩ := h
  simp [lastN, List.drop_left]

lemma length_le_of_lastN_ok {l : Bytes} (h : lastN l 4 = okSentinel) : 4 ≤ l.length := by
  have := congrArg List.length h
  simp [lastN, okSentinel, ascii] at this
  omega

/-- If the polling loop's buffer never contained the success sentinel and the
loop stops with the sentinel at the tail, then the part before the trailing
4 bytes does not contain the sentinel anywhere. -/
lemma readLoop_ok_no_infix (input : Bytes) :
    ∀ buf : Bytes, ¬ okSentinel <:+: buf →
      lastN (readLoop buf input) 4 = okSentinel →
      ¬ okSentinel <:+: dropLastN (readLoop buf input) 4 := by
  induction input with
  | nil =>
    intro buf hbuf hok
    simp only [readLoop] at hok
    have hsuf : lastN buf 4 <:+ buf := List.drop_suffix _ buf
    exact fun _ => hbuf (hok ▸ hsuf.isInfix)
  | cons b rest ih =>
    intro buf hbuf
    rw [readLoop]
    by_cases h4 : lastN (buf ++ [b]) 4 = okSentinel
    · rw [if_pos h4]
      intro _ hcon
      have hlen : 4 ≤ (buf ++ [b]).length := length_le_of_lastN_ok h4
      have hlen' : buf.length + 1 - 4 ≤ buf.length := by
        simp at hlen; omega
      rw [dropLastN, List.length_append, List.length_singleton,
        List.take_append_eq_append_take, Nat.sub_eq_zero_of_le hlen',
        List.take_zero, List.append_nil] at hcon
      exact hbuf (hcon.trans (List.take_prefix _ buf).isInfix)
    · rw [if_neg h4]
      by_cases h7 : lastN (buf ++ [b]) 7 = errSentinel
      · rw [if_pos h7]
        intro hok
        exact absurd hok h4
      · rw [if_neg h7]
        refine ih (buf ++ [b]) ?_
        intro hcon
        rcases infix_concat hcon with h | h
        · exact hbuf h
        · exact h4 (by simpa [okSentinel, ascii] using lastN_of_suffix h)

lemma sendAttempts_ok (cmd : Bytes) :
    ∀ (n : Nat) (st : ST) (payload : Bytes),
      (sendAttempts cmd n st).1 = some payload →
      ∃ buf, buf ∈ (sendAttempts cmd n st).2.bufs ∧
        (∃ avail, buf = readLoop [] avail) ∧
        lastN buf 4 = okSentinel ∧ payload = dropLastN buf 4 := by
  intro n
  induction n with
  | zero => intro st payload h; simp [sendAttempts] at h
  | succ n ih =>
    intro st payload h
    rw [sendAttempts] at h ⊢
    by_cases hc : lastN (readLoop [] (st.script.headD [])) 4 = okSentinel
    · rw [if_pos hc] at h ⊢
      refine ⟨readLoop [] (st.script.headD []), by simp, ⟨_, rfl⟩, hc, ?_⟩
      simpa using h.symm
    · rw [if_neg hc] at h ⊢
      exact ih _ payload h

lemma getD_tail (l : List Bytes) (i : Nat) :
    l.tail.getD i ([] : Bytes) = l.getD (i + 1) [] := by
  cases l <;> simp [List.getD]

lemma headD_eq_getD_zero (l : List Bytes) : l.headD ([] : Bytes) = l.getD 0 [] := by
  cases l <;> simp [List.getD]

lemma sendAttempts_fail (cmd : Bytes) :
    ∀ (n : Nat) (st : ST),
      (∀ i < n, lastN (readLoop [] (st.script.getD i [])) 4 ≠ okSentinel) →
      sendAttempts cmd n st =
        (none, ⟨st.script.drop n,
                st.writes ++ List.replicate n (cmd ++ crlf),
                st.bufs ++ (List.range n).map
                  (fun i => readLoop [] (st.script.getD i []))⟩) := by
  intro n
  induction n with
  | zero => intro st _; simp [sendAttempts]
  | succ n ih =>
    intro st h
    rw [sendAttempts]
    rw [if_neg (by rw [headD_eq_getD_zero]; exact h 0 (Nat.succ_pos n))]
    rw [ih _ (by intro i hi; rw [getD_tail]; exact h (i + 1) (by omega))]
    refine congrArg (Prod.mk none) ?_
    congr 1
    · rw [← List.drop_one, List.drop_drop, Nat.add_comm]
    · simp [List.replicate_succ]
    · simp only [List.range_succ_eq_map, List.map_cons, List.map_map,
        List.append_assoc, List.singleton_append, headD_eq_getD_zero]
      refine congrArg _ (congrArg _ ?_)
      refine List.map_congr_left fun i _ => ?_
      simp only [Function.comp_apply, getD_tail]

/-- C1: whenever `ESPC3.send` returns normally, the accumulated response
buffer of the returning attempt ends with the 4-byte success sentinel
`OK\r\n`, the returned payload is that buffer with exactly the trailing 4
sentinel bytes removed, and the payload does not contain `OK\r\n`
anywhere. -/
theorem send_success_payload (script : List Bytes) (cmd : Bytes) (retries : Nat)
    (payload : Bytes)
    (h : (sendST ⟨script, [], []⟩ cmd retries).1 = some payload) :
    ∃ buf ∈ (sendST ⟨script, [], []⟩ cmd retries).2.bufs,
      lastN buf 4 = okSentinel ∧ payload = dropLastN buf 4 ∧
      ¬ okSentinel <:+: payload := by
  obtain ⟨buf, hmem, ⟨avail, hb⟩, hok, hp⟩ := sendAttempts_ok cmd retries _ payload h
  refine ⟨buf, hmem, hok, hp, ?_⟩
  subst hb
  subst hp
  exact readLoop_ok_no_infix avail []
    (fun hc => absurd (List.infix_nil.mp hc) (by decide)) hok

/-- Witness for C1 at a concrete exchange: the device answers
`hi\r\nOK\r\n`, and the payload is `hi\r\n`. -/
theorem send_success_payload_w :
    ∃ buf ∈ (sendST ⟨[ascii "hi\r\nOK\r\n"], [], []⟩ (ascii "AT") 3).2.bufs,
      lastN buf 4 = okSentinel ∧ ascii "hi\r\n" = dropLastN buf 4 ∧
      ¬ okSentinel <:+: ascii "hi\r\n" :=
  send_success_payload [ascii "hi\r\nOK\r\n"] (ascii "AT") 3 (ascii "hi\r\n") rfl

/-- C2: when no attempt's examined buffer ends with the success sentinel,
`ESPC3.send` raises (`none`: no partial result is returned), exactly one
write of the command followed by CRLF is performed per attempt (`retries`
writes in total), and no examined buffer has `OK\r\n` at its tail. -/
theorem send_fail_no_response (script : List Bytes) (cmd : Bytes) (retries : Nat)
    (h : ∀ i < retries, lastN (readLoop [] (script.getD i [])) 4 ≠ okSentinel) :
    (sendST ⟨script, [], []⟩ cmd retries).1 = none ∧
    (sendST ⟨script, [], []⟩ cmd retries).2.writes =
      List.replicate retries (cmd ++ crlf) ∧
    ∀ buf ∈ (sendST ⟨script, [], []⟩ cmd retries).2.bufs,
      lastN buf 4 ≠ okSentinel := by
  have hrun := sendAttempts_fail cmd retries ⟨script, [], []⟩ (by simpa using h)
  rw [sendST, hrun]
  refine ⟨rfl, by simp, ?_⟩
  intro buf hmem
  simp only [List.nil_append, List.mem_map, List.mem_range] at hmem
  obtain ⟨i, hi, rfl⟩ := hmem
  exact h i hi

/-- Witness for C2 at a concrete exchange: the device answers
`ERROR\r\n` on the first attempt and nothing afterwards. -/
theorem send_fail_no_response_w :
    (sendST ⟨[ascii "ERROR\r\n"], [], []⟩ (ascii "AT") 3).1 = none ∧
    (sendST ⟨[ascii "ERROR\r\n"], [], []⟩ (ascii "AT") 3).2.writes =
      List.replicate 3 (ascii "AT" ++ crlf) ∧
    ∀ buf ∈ (sendST ⟨[ascii "ERROR\r\n"], [], []⟩ (ascii "AT") 3).2.bufs,
      lastN buf 4 ≠ okSentinel :=
  send_fail_no_response [ascii "ERROR\r\n"] (ascii "AT") 3 (by decide)

/-- Python exception classes the driver raises or catches: `Exception`
(`send` line 67, `join_ap` line 159), `RuntimeError` (`mode` line 207,
`ping` line 89, mode setter line 213), `ValueError` / `IndexError`
(raised by `int(...)` and out-of-range indexing during parsing).
`except RuntimeError` clauses catch only `.runtimeError`. -/
inductive PyErr
  | exception
  | runtimeError
  | valueError
  | indexError
deriving DecidableEq, Repr

/-- The parsed `+CWJAP:` record built by `ESPC3.parse_cwjap_response`
(lines 119-129). -/
structure CWJAP where
  ssid : Bytes
  bssid : Bytes
  channel : Int
  rssi : Int
  pci_en : Int
  reconn_interval : Int
  listen_interval : Int
  scan_mode : Int
  pmf : Int
deriving DecidableEq, Repr

def cwjapMark : Bytes := ascii "+CWJAP:"

/-- Python `fs[i]` (an `IndexError` when out of range). -/
def getField (fs : List Bytes) (i : Nat) : Except PyErr Bytes :=
  match fs[i]? with
  | some v => .ok v
  | none => .error .indexError

/-- Python `int(v)` (a `ValueError` when not an integer literal). -/
def toIntField (v : Bytes) : Except PyErr Int :=
  match pyInt v with
  | some n => .ok n
  | none => .error .valueError

/-- Evaluation of the dict literal of `parse_cwjap_response` (lines
119-129), field by field in source order. -/
def parseCwjapFields (fs : List Bytes) : Except PyErr CWJAP := do
  let f0 ← getField fs 0
  let f1 ← getField fs 1
  let channel ← toIntField (← getField fs 2)
  let rssi ← toIntField (← getField fs 3)
  let pci_en ← toIntField (← getField fs 4)
  let reconn ← toIntField (← getField fs 5)
  let listen ← toIntField (← getField fs 6)
  let scan_mode ← toIntField (← getField fs 7)
  let pmf ← toIntField (← getField fs 8)
  return ⟨stripQuotes f0, stripQuotes f1, channel, rssi, pci_en, reconn,
          listen, scan_mode, pmf⟩

/-- The line scan of `parse_cwjap_response` (lines 113-131): the first
line with the `+CWJAP:` marker is split on commas and parsed; no such
line yields `None`. -/
def parseCwjapLines : List Bytes → Except PyErr (Option CWJAP)
  | [] => .ok none
  | line :: rest =>
    if cwjapMark.isPrefixOf line then
      (parseCwjapFields (splitComma (line.drop 7))).map some
    else parseCwjapLines rest

/-- Model of `ESPC3.parse_cwjap_response(reply)` (lines 106-131). -/
def parse_cwjap_response (reply : Bytes) : Except PyErr (Option CWJAP) :=
  parseCwjapLines (splitCRLF reply)

def statusMark : Bytes := ascii "STATUS:"

/-- The line scan of the `ESPC3.status` property (lines 170-174): on the
first `STATUS:` line the code converts the single byte slice
`reply[7:8]` with `int`, so only one byte after the marker is read. -/
def statusLines : List Bytes → Except PyErr (Option Int)
  | [] => .ok none
  | line :: rest =>
    if statusMark.isPrefixOf line then
      match pyInt ((line.drop 7).take 1) with
      | some n => .ok (some n)
      | none => .error .valueError
    else statusLines rest

/-- Reply parsing of the `ESPC3.status` property (lines 167-174), applied
to the success-stripped payload of `AT+CIPSTATUS`. -/
def status_parse (reply : Bytes) : Except PyErr (Option Int) :=
  statusLines (splitCRLF reply)

lemma isPrefixOf_append (p l : Bytes) : p.isPrefixOf (p ++ l) = true := by
  rw [List.isPrefixOf_iff_prefix]
  exact List.prefix_append p l

lemma parseCwjapLines_skip (pre rest : List Bytes)
    (h : ∀ l ∈ pre, cwjapMark.isPrefixOf l = false) :
    parseCwjapLines (pre ++ rest) = parseCwjapLines rest := by
  induction pre with
  | nil => rfl
  | cons a pre ih =>
    rw [List.cons_append, parseCwjapLines, h a (by simp), if_neg (by simp)]
    exact ih fun l hl => h l (by simp [hl])

lemma parseCwjapLines_none (lines : List Bytes)
    (h : ∀ l ∈ lines, cwjapMark.isPrefixOf l = false) :
    parseCwjapLines lines = .ok none := by
  have := parseCwjapLines_skip lines [] h
  simpa using this

/-- C4: a success-stripped reply whose first `+CWJAP:` line carries 9
comma-separated fields with well-formed integers in positions 2-8 parses
to a record whose fields are exactly the input fields, with quotes
stripped from ssid and bssid and the integer fields converted; a reply
with no `+CWJAP:` line parses to no record and no error. -/
theorem parse_cwjap_spec :
    (∀ (reply : Bytes) (pre post : List Bytes)
       (body f0 f1 f2 f3 f4 f5 f6 f7 f8 : Bytes) (c r p ri li sm pm : Int),
       splitCRLF reply = pre ++ (cwjapMark ++ body) :: post →
       (∀ l ∈ pre, cwjapMark.isPrefixOf l = false) →
       splitComma body = [f0, f1, f2, f3, f4, f5, f6, f7, f8] →
       pyInt f2 = some c → pyInt f3 = some r → pyInt f4 = some p →
       pyInt f5 = some ri → pyInt f6 = some li → pyInt f7 = some sm →
       pyInt f8 = some pm →
       parse_cwjap_response reply =
         .ok (some ⟨stripQuotes f0, stripQuotes f1, c, r, p, ri, li, sm, pm⟩)) ∧
    (∀ reply : Bytes,
       (∀ l ∈ splitCRLF reply, cwjapMark.isPrefixOf l = false) →
       parse_cwjap_response reply = .ok none) := by
  constructor
  · intro reply pre post body f0 f1 f2 f3 f4 f5 f6 f7 f8 c r p ri li sm pm
    intro hsplit hpre hfields h2 h3 h4 h5 h6 h7 h8
    rw [parse_cwjap_response, hsplit, parseCwjapLines_skip pre _ hpre,
      parseCwjapLines, if_pos (by rw [isPrefixOf_append]),
      List.drop_left' (by rfl), hfields]
    simp [parseCwjapFields, getField, toIntField, h2, h3, h4, h5, h6, h7, h8,
      Except.map, Bind.bind, Except.bind, Pure.pure, Except.pure]
  · intro reply h
    exact parseCwjapLines_none _ h

/-- Witness for C4 at the spec's example join-status reply. -/
theorem parse_cwjap_spec_w :
    parse_cwjap_response
        (ascii "+CWJAP:\"home\",\"aa:bb:cc:dd:ee:ff\",6,-40,1,1,3,0,1\r\n\r\n") =
      .ok (some ⟨stripQuotes (ascii "\"home\""),
                 stripQuotes (ascii "\"aa:bb:cc:dd:ee:ff\""),
                 6, -40, 1, 1, 3, 0, 1⟩) ∧
    parse_cwjap_response (ascii "no joined ap\r\n") = .ok none :=
  ⟨parse_cwjap_spec.1
      (ascii "+CWJAP:\"home\",\"aa:bb:cc:dd:ee:ff\",6,-40,1,1,3,0,1\r\n\r\n")
      [] [[], []]
      (ascii "\"home\",\"aa:bb:cc:dd:ee:ff\",6,-40,1,1,3,0,1")
      (ascii "\"home\"") (ascii "\"aa:bb:cc:dd:ee:ff\"")
      (ascii "6") (ascii "-40") (ascii "1") (ascii "1") (ascii "3")
      (ascii "0") (ascii "1")
      6 (-40) 1 1 3 0 1
      (by decide) (by decide) (by decide)
      (by decide) (by decide) (by decide) (by decide) (by decide) (by decide)
      (by decide),
   parse_cwjap_spec.2 (ascii "no joined ap\r\n") (by decide)⟩

deriving instance DecidableEq for Except

lemma pyInt_digit {d : Nat} (hd : isDigitByte d = true) :
    pyInt [d] = some ((d - 48 : Nat) : Int) := by
  simp [isDigitByte] at hd
  obtain ⟨h1, h2⟩ := hd
  interval_cases d <;> decide

lemma statusLines_skip (pre rest : List Bytes)
    (h : ∀ l ∈ pre, statusMark.isPrefixOf l = false) :
    statusLines (pre ++ rest) = statusLines rest := by
  induction pre with
  | nil => rfl
  | cons a pre ih =>
    rw [List.cons_append, statusLines, h a (by simp), if_neg (by simp)]
    exact ih fun l hl => h l (by simp [hl])

/-- C9 counterexample: on the reply `STATUS:12` the code returns status
code 1, not 12 — `status` converts only the single byte `reply[7:8]`. -/
theorem status_first_digit_cex :
    status_parse (ascii "STATUS:12\r\n") = .ok (some 1) ∧
    status_parse (ascii "STATUS:12\r\n") ≠ .ok (some 12) := by
  decide

/-- C9 amended: on the first `STATUS:`-prefixed line the status query
returns the integer value of the single byte right after the marker (the
first digit of the code; device status codes are single digits, for which
this is the whole code), and a reply with no such line returns no
value. -/
theorem status_parse_spec :
    (∀ (reply : Bytes) (pre post : List Bytes) (d : Nat) (rest : Bytes),
       splitCRLF reply = pre ++ (statusMark ++ d :: rest) :: post →
       (∀ l ∈ pre, statusMark.isPrefixOf l = false) →
       isDigitByte d = true →
       status_parse reply = .ok (some ((d - 48 : Nat) : Int))) ∧
    (∀ reply : Bytes,
       (∀ l ∈ splitCRLF reply, statusMark.isPrefixOf l = false) →
       status_parse reply = .ok none) := by
  constructor
  · intro reply pre post d rest hsplit hpre hd
    rw [status_parse, hsplit, statusLines_skip pre _ hpre, statusLines,
      if_pos (by rw [isPrefixOf_append]), List.drop_left' (by rfl)]
    simp [pyInt_digit hd]
  · intro reply h
    have := statusLines_skip (splitCRLF reply) [] h
    simpa [status_parse] using this

/-- Witness for C9's amended statement: `STATUS:3` yields code 3 and a
reply without a status line yields no value. -/
theorem status_parse_spec_w :
    status_parse (ascii "STATUS:3\r\n") = .ok (some 3) ∧
    status_parse (ascii "no status here\r\n") = .ok none :=
  ⟨status_parse_spec.1 (ascii "STATUS:3\r\n") [] [[]] 51 []
      (by decide) (by decide) (by decide),
   status_parse_spec.2 (ascii "no status here\r\n") (by decide)⟩

/-- One positional value of an `AccessPointRecord`: the scan parser of
`ESPC3.get_AP` stores either a converted integer or a (fallback) string
into `router[i]`. -/
inductive FieldVal
  | s : Bytes → FieldVal
  | i : Int → FieldVal
deriving DecidableEq, Repr

def unknownLabel : Bytes := ascii "Unknown"

/-- Model of `encryption_mapping.get(n, "Unknown")` in `ESPC3.get_AP` (lines
274-279). -/
def encLabel (n : Int) : Bytes :=
  if n = 0 then ascii "Ninguna"
  else if n = 1 then ascii "WEP"
  else if n = 2 then ascii "WPA-PSK"
  else if n = 3 then ascii "WPA2-PSK"
  else if n = 4 then ascii "WPA/WPA2-PSK"
  else if n = 5 then ascii "WPA2 Enterprise"
  else if n = 6 then ascii "WPA3-PSK"
  else if n = 7 then ascii "WPA2/WPA3-PSK"
  else if n = 8 then ascii "WAPI-PSK"
  else if n = 9 then ascii "OWE"
  else unknownLabel

/-- Model of `router = ["Unknown"] * 12` (line 267). -/
def routerInit : List FieldVal := List.replicate 12 (FieldVal.s unknownLabel)

/-- One pass of the `for i, val in enumerate(line)` body of `ESPC3.get_AP`
(lines 269-304): position 0 maps the integer through the encryption
table, position 1 is the quote-stripped ssid, position 3 the mac string,
positions 2 and 4-11 are integers; a `ValueError` from `int(val)` is
caught and the quote-stripped string stored instead; positions past 11
match no branch and are ignored. -/
def updateField (r : List FieldVal) (i : Nat) (v : Bytes) : List FieldVal :=
  if i = 0 then
    match pyInt v with
    | some n => r.set 0 (FieldVal.s (encLabel n))
    | none => r.set 0 (FieldVal.s (stripQuotes v))
  else if i = 1 then r.set 1 (FieldVal.s (stripQuotes v))
  else if i = 3 then r.set 3 (FieldVal.s v)
  else if i ≤ 11 then
    match pyInt v with
    | some n => r.set i (FieldVal.i n)
    | none => r.set i (FieldVal.s (stripQuotes v))
  else r

def parseFieldsAux : Nat → List Bytes → List FieldVal → List FieldVal
  | _, [], r => r
  | i, v :: vs, r => parseFieldsAux (i + 1) vs (updateField r i v)

def cwlapMark : Bytes := ascii "+CWLAP:("

/-- Parsing of one `+CWLAP:(` scan line of `ESPC3.get_AP` (lines
263-305): `line[8:-1].split(b",")` walked with `enumerate`. -/
def parseRouterLine (line : Bytes) : List FieldVal :=
  parseFieldsAux 0 (splitComma (dropLastN (line.drop 8) 1)) routerInit

/-- The accumulation of `routers` in `ESPC3.get_AP` (lines 261-305): one
record per `+CWLAP:(`-prefixed line, in device order. -/
def parseRouters (lines : List Bytes) : List (List FieldVal) :=
  (lines.filter (fun l => cwlapMark.isPrefixOf l)).map parseRouterLine

/-- The value `updateField` stores at position `i ≤ 11`. -/
def fieldUpdateValue (i : Nat) (v : Bytes) : FieldVal :=
  if i = 0 then
    match pyInt v with
    | some n => FieldVal.s (encLabel n)
    | none => FieldVal.s (stripQuotes v)
  else if i = 1 then FieldVal.s (stripQuotes v)
  else if i = 3 then FieldVal.s v
  else
    match pyInt v with
    | some n => FieldVal.i n
    | none => FieldVal.s (stripQuotes v)

lemma updateField_eq_set (r : List FieldVal) (i : Nat) (v : Bytes)
    (h : i ≤ 11) : updateField r i v = r.set i (fieldUpdateValue i v) := by
  unfold updateField fieldUpdateValue
  by_cases h0 : i = 0
  · subst h0; cases pyInt v <;> simp
  · rw [if_neg h0, if_neg h0]
    by_cases h1 : i = 1
    · simp [h1]
    · rw [if_neg h1, if_neg h1]
      by_cases h3 : i = 3
      · simp [h3]
      · rw [if_neg h3, if_neg h3, if_pos h]
        cases pyInt v <;> simp

lemma length_updateField (r : List FieldVal) (i : Nat) (v : Bytes) :
    (updateField r i v).length = r.length := by
  unfold updateField
  repeat' split
  all_goals simp

lemma getD_updateField_ne (r : List FieldVal) (j i : Nat) (v : Bytes)
    (d : FieldVal) (h : j ≠ i) :
    (updateField r j v).getD i d = r.getD i d := by
  unfold updateField
  repeat' split
  all_goals subst_vars
  all_goals simp [List.getD_eq_getElem?_getD, List.getElem?_set_ne h]

lemma parseFieldsAux_getD_lt (d : FieldVal) (i : Nat) :
    ∀ (vs : List Bytes) (k : Nat) (r : List FieldVal), i < k →
      (parseFieldsAux k vs r).getD i d = r.getD i d := by
  intro vs
  induction vs with
  | nil => intro k r _; rfl
  | cons w ws ih =>
    intro k r hk
    rw [parseFieldsAux, ih (k + 1) _ (by omega),
      getD_updateField_ne _ _ _ _ _ (by omega)]

lemma parseFieldsAux_length :
    ∀ (vs : List Bytes) (k : Nat) (r : List FieldVal),
      (parseFieldsAux k vs r).length = r.length := by
  intro vs
  induction vs with
  | nil => intro k r; rfl
  | cons w ws ih =>
    intro k r
    rw [parseFieldsAux, ih, length_updateField]

lemma parseFieldsAux_getD (d : FieldVal) (i : Nat) (hi : i ≤ 11) :
    ∀ (vs : List Bytes) (k : Nat) (r : List FieldVal) (v : Bytes),
      k ≤ i → vs[i - k]? = some v → i < r.length →
      (parseFieldsAux k vs r).getD i d = fieldUpdateValue i v := by
  intro vs
  induction vs with
  | nil => intro k r v _ hv _; simp at hv
  | cons w ws ih =>
    intro k r v hk hv hlen
    rcases Nat.eq_or_lt_of_le hk with rfl | hlt
    · rw [Nat.sub_self] at hv
      simp only [List.getElem?_cons_zero, Option.some.injEq] at hv
      subst hv
      rw [parseFieldsAux, parseFieldsAux_getD_lt d k ws (k + 1) _ (by omega),
        updateField_eq_set _ _ _ hi, List.getD_eq_getElem?_getD,
        List.getElem?_set_self hlen]
      rfl
    · rw [parseFieldsAux]
      refine ih (k + 1) _ v (by omega) ?_ (by rw [length_updateField]; exact hlen)
      have : i - k = (i - (k + 1)) + 1 := by omega
      rw [this] at hv
      simpa using hv

/-- C7 counterexample: the code's table maps encryption code 0 to the
label `Ninguna` (not `none`) and code 5 to `WPA2 Enterprise` (not
`WPA2-Enterprise`), refuting the claimed table at codes 0 and 5. -/
theorem enc_label_cex :
    (parseRouterLine (ascii "+CWLAP:(0,\"MyNet\",-55,\"11:22:33:44:55:66\",6)")).getD 0
        (FieldVal.s []) = FieldVal.s (ascii "Ninguna") ∧
    ascii "Ninguna" ≠ ascii "none" ∧ ascii "Ninguna" ≠ ascii "None" ∧
    encLabel 5 = ascii "WPA2 Enterprise" ∧
    ascii "WPA2 Enterprise" ≠ ascii "WPA2-Enterprise" := by
  decide

/-- C7 amended: for every scan line, field 0 is mapped through the
encryption table with 0 → Ninguna, 1 → WEP, 2 → WPA-PSK, 3 → WPA2-PSK,
4 → WPA/WPA2-PSK, 5 → WPA2 Enterprise, 6 → WPA3-PSK, 7 → WPA2/WPA3-PSK,
8 → WAPI-PSK, 9 → OWE, and every code outside 0-9 yields Unknown. -/
theorem enc_mapping_spec :
    (∀ (line v : Bytes) (vs : List Bytes) (n : Int),
       splitComma (dropLastN (line.drop 8) 1) = v :: vs →
       pyInt v = some n →
       (parseRouterLine line).getD 0 (FieldVal.s []) = FieldVal.s (encLabel n)) ∧
    encLabel 0 = ascii "Ninguna" ∧ encLabel 1 = ascii "WEP" ∧
    encLabel 2 = ascii "WPA-PSK" ∧ encLabel 3 = ascii "WPA2-PSK" ∧
    encLabel 4 = ascii "WPA/WPA2-PSK" ∧ encLabel 5 = ascii "WPA2 Enterprise" ∧
    encLabel 6 = ascii "WPA3-PSK" ∧ encLabel 7 = ascii "WPA2/WPA3-PSK" ∧
    encLabel 8 = ascii "WAPI-PSK" ∧ encLabel 9 = ascii "OWE" ∧
    (∀ n : Int, n < 0 ∨ 9 < n → encLabel n = unknownLabel) := by
  refine ⟨?_, by decide, by decide, by decide, by decide, by decide, by decide,
    by decide, by decide, by decide, by decide, ?_⟩
  · intro line v vs n hsplit hv
    rw [parseRouterLine, hsplit,
      parseFieldsAux_getD (FieldVal.s []) 0 (by omega) (v :: vs) 0 routerInit v
        (by omega) (by simp) (by simp [routerInit])]
    simp [fieldUpdateValue, hv]
  · intro n hn
    unfold encLabel
    repeat rw [if_neg (by omega)]

/-- Witness for C7's amended statement at encryption code 3 and at the
out-of-range code 10. -/
theorem enc_mapping_spec_w :
    (parseRouterLine (ascii "+CWLAP:(3)")).getD 0 (FieldVal.s []) =
      FieldVal.s (encLabel 3) ∧
    encLabel 10 = unknownLabel :=
  ⟨enc_mapping_spec.1 (ascii "+CWLAP:(3)") (ascii "3") [] 3
      (by decide) (by decide),
   (enc_mapping_spec.2.2.2.2.2.2.2.2.2.2.2) 10 (Or.inr (by decide))⟩

/-- C8: a positional scan field (a position that undergoes numeric
conversion, so not the ssid or mac string positions 1 and 3) whose
conversion fails is stored as the quote-stripped string, and the record
for that line still appears in the scan result. -/
theorem scan_field_fallback (line v : Bytes) (i : Nat) (lines : List Bytes)
    (hv : (splitComma (dropLastN (line.drop 8) 1))[i]? = some v)
    (hfail : pyInt v = none) (hle : i ≤ 11) (h1 : i ≠ 1) (h3 : i ≠ 3) :
    (parseRouterLine line).getD i (FieldVal.s []) =
      FieldVal.s (stripQuotes v) ∧
    (cwlapMark.isPrefixOf line = true → line ∈ lines →
      parseRouterLine line ∈ parseRouters lines) := by
  constructor
  · rw [parseRouterLine,
      parseFieldsAux_getD (FieldVal.s []) i hle _ 0 routerInit v
        (by omega) (by simpa using hv) (by simp [routerInit]; omega)]
    unfold fieldUpdateValue
    by_cases h0 : i = 0
    · simp [h0, hfail]
    · rw [if_neg h0, if_neg h1, if_neg h3, hfail]
  · intro hpre hmem
    rw [parseRouters]
    exact List.mem_map_of_mem parseRouterLine (List.mem_filter.mpr ⟨hmem, hpre⟩)

/-- Witness for C8: on a scan line whose rssi field is the non-numeric
token `xx`, position 2 holds the string `xx` and the record is in the
scan result. -/
theorem scan_field_fallback_w :
    (parseRouterLine (ascii "+CWLAP:(3,\"N\",xx,\"m\",6)")).getD 2
        (FieldVal.s []) = FieldVal.s (stripQuotes (ascii "xx")) ∧
    (cwlapMark.isPrefixOf (ascii "+CWLAP:(3,\"N\",xx,\"m\",6)") = true →
      ascii "+CWLAP:(3,\"N\",xx,\"m\",6)" ∈ [ascii "+CWLAP:(3,\"N\",xx,\"m\",6)"] →
      parseRouterLine (ascii "+CWLAP:(3,\"N\",xx,\"m\",6)") ∈
        parseRouters [ascii "+CWLAP:(3,\"N\",xx,\"m\",6)"]) :=
  scan_field_fallback (ascii "+CWLAP:(3,\"N\",xx,\"m\",6)") (ascii "xx") 2
    [ascii "+CWLAP:(3,\"N\",xx,\"m\",6)"]
    (by decide) (by decide) (by decide) (by decide) (by decide)

def cwmodeQuery : Bytes := ascii "AT+CWMODE?"
def cwmodeMark : Bytes := ascii "+CWMODE:"
def cwjapQuery : Bytes := ascii "AT+CWJAP?"
def cwlapQuery : Bytes := ascii "AT+CWLAP"
def cipstatusQuery : Bytes := ascii "AT+CIPSTATUS"
def cipv6Cmd : Bytes := ascii "AT+CIPV6=1"
def wifiConnMark : Bytes := ascii "WIFI CONNECTED"
def wifiIpMark : Bytes := ascii "WIFI GOT IP"

/-- Python `needle in hay` for byte strings (substring containment). -/
def containsSeq (needle : Bytes) : Bytes → Bool
  | [] => needle.isPrefixOf []
  | b :: rest => needle.isPrefixOf (b :: rest) || containsSeq needle rest

def intToBytes (n : Int) : Bytes := ascii (toString n)

/-- The `ESPC3.mode` getter (lines 201-207): query `AT+CWMODE?`, return
the integer after the first `+CWMODE:` marker; a missing marker raises
`RuntimeError`, a `send` failure propagates as a plain exception, and a
bad integer raises `ValueError`. -/
def modeGet (st : ST) : Except PyErr Int × ST :=
  match sendST st cwmodeQuery 3 with
  | (none, st1) => (.error .exception, st1)
  | (some reply, st1) =>
    match (splitCRLF reply).find? (fun l => cwmodeMark.isPrefixOf l) with
    | some line =>
      match pyInt (line.drop 8) with
      | some n => (.ok n, st1)
      | none => (.error .valueError, st1)
    | none => (.error .runtimeError, st1)

/-- The `ESPC3.mode` setter (lines 209-214): reject modes outside 1-3
with `RuntimeError` before any I/O, otherwise issue `AT+CWMODE=<n>`. -/
def modeSet (st : ST) (mode : Int) : Except PyErr Unit × ST :=
  if mode = 1 ∨ mode = 2 ∨ mode = 3 then
    match sendST st (ascii "AT+CWMODE=" ++ intToBytes mode) 3 with
    | (none, st1) => (.error .exception, st1)
    | (some _, st1) => (.ok (), st1)
  else (.error .runtimeError, st)

/-- Model of `if self.mode != self.MODE_STATION: self.mode = self.MODE_STATION`
(lines 135-136 and 254-255). -/
def modeEnsure (st : ST) : Except PyErr Unit × ST :=
  match modeGet st with
  | (.error e, st1) => (.error e, st1)
  | (.ok m, st1) => if m ≠ 1 then modeSet st1 1 else (.ok (), st1)

/-- The `AT+CWJAP="<ssid>","<password>"` command text (line 148). -/
def joinCmd (ssid pwd : Bytes) : Bytes :=
  ascii "AT+CWJAP=\"" ++ ssid ++ ascii "\",\"" ++ pwd ++ ascii "\""

/-- The `for _ in range(3)` join loop of `ESPC3.join_ap` (lines 146-159):
each iteration issues the join command (a `send` failure propagates); on
both connect markers it re-queries the join status and returns the parsed
record when present; otherwise the next iteration runs; exhaustion raises
a plain exception (line 159). -/
def joinLoop (ssid pwd : Bytes) : Nat → ST → Except PyErr CWJAP × ST
  | 0, st => (.error .exception, st)
  | n + 1, st =>
    match sendST st (joinCmd ssid pwd) 3 with
    | (none, st1) => (.error .exception, st1)
    | (some reply, st1) =>
      if containsSeq wifiConnMark reply && containsSeq wifiIpMark reply then
        match sendST st1 cwjapQuery 3 with
        | (none, st2) => (.error .exception, st2)
        | (some r2, st2) =>
          match parse_cwjap_response r2 with
          | .error e => (.error e, st2)
          | .ok (some info) => (.ok info, st2)
          | .ok none => joinLoop ssid pwd n st2
      else joinLoop ssid pwd n st1

/-- Model of `ESPC3.join_ap(ssid, password)` (lines 133-159). -/
def join_ap (st : ST) (ssid pwd : Bytes) : Except PyErr CWJAP × ST :=
  match modeEnsure st with
  | (.error e, st1) => (.error e, st1)
  | (.ok _, st1) =>
    match sendST st1 cwjapQuery 3 with
    | (none, st2) => (.error .exception, st2)
    | (some reply, st2) =>
      match parse_cwjap_response reply with
      | .error e => (.error e, st2)
      | .ok (some info) =>
        if info.ssid = ssid then (.ok info, st2)
        else joinLoop ssid pwd 3 st2
      | .ok none => joinLoop ssid pwd 3 st2

/-- The `try` block of one `ESPC3.get_AP` attempt (lines 253-257): ensure
station mode, issue `AT+CWLAP`, split the reply into lines. -/
def getAPtry (st : ST) : Except PyErr (List Bytes) × ST :=
  match modeEnsure st with
  | (.error e, st1) => (.error e, st1)
  | (.ok _, st1) =>
    match sendST st1 cwlapQuery 3 with
    | (none, st2) => (.error .exception, st2)
    | (some reply, st2) => (.ok (splitCRLF reply), st2)

/-- The retry loop of `ESPC3.get_AP` (lines 252-307): only
`RuntimeError` is caught by the `except RuntimeError: continue` clause;
any other exception propagates; exhausting the loop returns `[]`. -/
def getAPloop : Nat → ST → Except PyErr (List (List FieldVal)) × ST
  | 0, st => (.ok [], st)
  | n + 1, st =>
    match getAPtry st with
    | (.error .runtimeError, st1) => getAPloop n st1
    | (.error e, st1) => (.error e, st1)
    | (.ok lines, st1) => (.ok (parseRouters lines), st1)

/-- Model of `ESPC3.get_AP(retries)` (lines 251-307). -/
def get_AP (st : ST) (retries : Nat := 3) :
    Except PyErr (List (List FieldVal)) × ST :=
  getAPloop retries st

/-- The `ESPC3.status` property (lines 167-174): issue `AT+CIPSTATUS`
and parse the reply. -/
def statusOp (st : ST) : Except PyErr (Option Int) × ST :=
  match sendST st cipstatusQuery 3 with
  | (none, st1) => (.error .exception, st1)
  | (some reply, st1) => (status_parse reply, st1)

/-- The `ESPC3.is_connected` property (lines 161-165): membership of the
status code in (2, 3, 4); a missing status line gives `None`, which is in
no tuple, hence `false`. -/
def is_connected (st : ST) : Except PyErr Bool × ST :=
  match statusOp st with
  | (.error e, st1) => (.error e, st1)
  | (.ok v, st1) => (.ok (v == some 2 || v == some 3 || v == some 4), st1)

/-- The `while retries > 0` loop of `ESPC3.connect` (lines 95-104): the
`try` body returns `True` when already connected or after a `join_ap`
call returns; `except RuntimeError` catches only that class and retries;
other exceptions propagate; falling out of the loop returns Python
`None`, modelled as `.ok none`. -/
def connectLoop (ssid pwd : Bytes) : Nat → ST → Except PyErr (Option Bool) × ST
  | 0, st => (.ok none, st)
  | n + 1, st =>
    match is_connected st with
    | (.error .runtimeError, st1) => connectLoop ssid pwd n st1
    | (.error e, st1) => (.error e, st1)
    | (.ok true, st1) => (.ok (some true), st1)
    | (.ok false, st1) =>
      match join_ap st1 ssid pwd with
      | (.error .runtimeError, st2) => connectLoop ssid pwd n st2
      | (.error e, st2) => (.error e, st2)
      | (.ok _, st2) => (.ok (some true), st2)

/-- Model of `ESPC3.connect(secrets)` (lines 91-104) with the ssid and password
taken from the secrets dictionary. -/
def connect (st : ST) (ssid pwd : Bytes) : Except PyErr (Option Bool) × ST :=
  connectLoop ssid pwd 3 st

/-- Model of `ESPC3.enable_ipv6()` (lines 69-72). -/
def enable_ipv6 (st : ST) : Except PyErr Unit × ST :=
  match sendST st cipv6Cmd 3 with
  | (none, st1) => (.error .exception, st1)
  | (some _, st1) => (.ok (), st1)

/-- The `AT+PING="<host>"` command text (line 80): the host has
surrounding quotes stripped first. -/
def pingCmd (host : Bytes) : Bytes :=
  ascii "AT+PING=\"" ++ stripQuotes host ++ ascii "\""

/-- The reply scan of `ESPC3.ping` (lines 81-89): the first non-empty
line starting with `+` yields the integer after `+PING:` (bytes 1-4 equal
`PING`) or directly after `+`; a `ValueError` there returns `None`; no
such line raises `RuntimeError`. -/
def pingLines : List Bytes → Except PyErr (Option Int)
  | [] => .error .runtimeError
  | line :: rest =>
    if !line.isEmpty && (ascii "+").isPrefixOf line then
      if (line.drop 1).take 4 = ascii "PING" then
        match pyInt (line.drop 6) with
        | some n => .ok (some n)
        | none => .ok none
      else
        match pyInt (line.drop 1) with
        | some n => .ok (some n)
        | none => .ok none
    else pingLines rest

/-- Model of `ESPC3.ping(host)` (lines 74-89): enable IPv6 first, then issue the
ping command and parse the reply. -/
def ping (st : ST) (host : Bytes) : Except PyErr (Option Int) × ST :=
  match enable_ipv6 st with
  | (.error e, st1) => (.error e, st1)
  | (.ok _, st1) =>
    match sendST st1 (pingCmd host) 3 with
    | (none, st2) => (.error .exception, st2)
    | (some reply, st2) => (pingLines (splitCRLF reply), st2)

lemma sendAttempts_writes (cmd : Bytes) :
    ∀ (n : Nat) (st : ST), ∃ k,
      (sendAttempts cmd n st).2.writes =
        st.writes ++ List.replicate k (cmd ++ crlf) ∧
      ((sendAttempts cmd n st).1 = none → k = n) ∧
      (∀ payload, (sendAttempts cmd n st).1 = some payload → 1 ≤ k) := by
  intro n
  induction n with
  | zero =>
    intro st
    exact ⟨0, by simp [sendAttempts], fun _ => rfl, by simp [sendAttempts]⟩
  | succ n ih =>
    intro st
    by_cases hc : lastN (readLoop [] (st.script.headD [])) 4 = okSentinel
    · refine ⟨1, ?_, ?_, ?_⟩
      · rw [sendAttempts, if_pos hc]
        simp
      · rw [sendAttempts, if_pos hc]
        intro h
        simp at h
      · intro p _
        exact le_refl 1
    · obtain ⟨k, hw, hnone, -⟩ :=
        ih ⟨st.script.tail, st.writes ++ [cmd ++ crlf],
            st.bufs ++ [readLoop [] (st.script.headD [])]⟩
      refine ⟨k + 1, ?_, ?_, ?_⟩
      · rw [sendAttempts, if_neg hc, hw]
        simp [List.replicate_succ]
      · rw [sendAttempts, if_neg hc]
        intro h
        rw [hnone h]
      · intro p _
        omega

lemma sendST_writes (st : ST) (cmd : Bytes) : ∃ k,
    (sendST st cmd 3).2.writes = st.writes ++ List.replicate k (cmd ++ crlf) ∧
    ((sendST st cmd 3).1 = none → k = 3) ∧
    (∀ payload, (sendST st cmd 3).1 = some payload → 1 ≤ k) :=
  sendAttempts_writes cmd 3 st

lemma modeGet_state (st : ST) : (modeGet st).2 = (sendST st cwmodeQuery 3).2 := by
  unfold modeGet
  rcases sendST st cwmodeQuery 3 with ⟨r, st1⟩
  cases r with
  | none => rfl
  | some reply =>
    dsimp only
    cases (splitCRLF reply).find? (fun l => cwmodeMark.isPrefixOf l) with
    | none => rfl
    | some line =>
      dsimp only
      cases pyInt (line.drop 8) <;> rfl

lemma modeSet_state (st : ST) : (modeSet st 1).2 = (sendST st (ascii "AT+CWMODE=" ++ intToBytes 1) 3).2 := by
  unfold modeSet
  rw [if_pos (Or.inl rfl)]
  rcases sendST st (ascii "AT+CWMODE=" ++ intToBytes 1) 3 with ⟨r, st1⟩
  cases r <;> rfl

/-- Every byte list written during `modeEnsure` is either the mode query
or the station-mode set command (each followed by CRLF). -/
lemma modeEnsure_writes (st : ST) : ∃ ws,
    (modeEnsure st).2.writes = st.writes ++ ws ∧
    ∀ w ∈ ws, w = cwmodeQuery ++ crlf ∨
      w = ascii "AT+CWMODE=" ++ intToBytes 1 ++ crlf := by
  obtain ⟨k1, hk1, -, -⟩ := sendST_writes st cwmodeQuery
  unfold modeEnsure
  rcases h1 : modeGet st with ⟨r1, st1⟩
  have hst1 : st1.writes = st.writes ++ List.replicate k1 (cwmodeQuery ++ crlf) := by
    rw [← hk1, ← modeGet_state, h1]
  cases r1 with
  | error e =>
    exact ⟨List.replicate k1 (cwmodeQuery ++ crlf), hst1,
      fun w hw => Or.inl (List.eq_of_mem_replicate hw)⟩
  | ok m =>
    dsimp only
    by_cases hm : m ≠ 1
    · rw [if_pos hm]
      obtain ⟨k2, hk2, -, -⟩ := sendST_writes st1 (ascii "AT+CWMODE=" ++ intToBytes 1)
      refine ⟨List.replicate k1 (cwmodeQuery ++ crlf) ++
        List.replicate k2 (ascii "AT+CWMODE=" ++ intToBytes 1 ++ crlf), ?_, ?_⟩
      · rw [modeSet_state, hk2, hst1, List.append_assoc]
      · intro w hw
        rcases List.mem_append.mp hw with h | h
        · exact Or.inl (List.eq_of_mem_replicate h)
        · exact Or.inr (List.eq_of_mem_replicate h)
    · rw [if_neg hm]
      exact ⟨List.replicate k1 (cwmodeQuery ++ crlf), hst1,
        fun w hw => Or.inl (List.eq_of_mem_replicate hw)⟩

/-- C3: when ensuring station mode succeeds and the `AT+CWJAP?` query at
the start of `join_ap` parses to a ConnectionInfo whose ssid equals the
requested ssid, `join_ap` returns that record immediately and none of the
bytes written to the transport during the call starts with
`AT+CWJAP=` — no join command is issued. -/
theorem join_ap_short_circuit
    (st st1 st2 : ST) (ssid pwd reply : Bytes) (info : CWJAP)
    (hmode : modeEnsure st = (.ok (), st1))
    (hsend : sendST st1 cwjapQuery 3 = (some reply, st2))
    (hparse : parse_cwjap_response reply = .ok (some info))
    (hssid : info.ssid = ssid) :
    join_ap st ssid pwd = (.ok info, st2) ∧
    ∃ ws, st2.writes = st.writes ++ ws ∧
      ∀ w ∈ ws, (ascii "AT+CWJAP=").isPrefixOf w = false := by
  constructor
  · unfold join_ap
    rw [hmode]
    dsimp only
    rw [hsend]
    dsimp only
    rw [hparse]
    dsimp only
    rw [if_pos hssid]
  · obtain ⟨ws1, hws1, hmem1⟩ := modeEnsure_writes st
    rw [hmode] at hws1
    obtain ⟨k, hk, -, -⟩ := sendST_writes st1 cwjapQuery
    rw [hsend] at hk
    dsimp only at hws1 hk
    refine ⟨ws1 ++ List.replicate k (cwjapQuery ++ crlf), ?_, ?_⟩
    · rw [hk, hws1, List.append_assoc]
    · intro w hw
      rcases List.mem_append.mp hw with h | h
      · rcases hmem1 w h with rfl | rfl
        · decide
        · decide
      · rw [List.eq_of_mem_replicate h]
        decide

/-- Witness for C3: with the device already joined to `home`, `join_ap`
returns the parsed record and the transport trace holds only the mode
query and the join-status query. -/
theorem join_ap_short_circuit_w :
    join_ap ⟨[ascii "+CWMODE:1\r\nOK\r\n",
              ascii "+CWJAP:\"home\",\"aa\",6,-40,1,1,3,0,1\r\nOK\r\n"], [], []⟩
        (ascii "home") (ascii "pw") =
      (.ok ⟨ascii "home", ascii "aa", 6, -40, 1, 1, 3, 0, 1⟩,
       ⟨[], [cwmodeQuery ++ crlf, cwjapQuery ++ crlf],
        [ascii "+CWMODE:1\r\nOK\r\n",
         ascii "+CWJAP:\"home\",\"aa\",6,-40,1,1,3,0,1\r\nOK\r\n"]⟩) ∧
    ∃ ws,
      (⟨[], [cwmodeQuery ++ crlf, cwjapQuery ++ crlf],
        [ascii "+CWMODE:1\r\nOK\r\n",
         ascii "+CWJAP:\"home\",\"aa\",6,-40,1,1,3,0,1\r\nOK\r\n"]⟩ : ST).writes =
        (⟨[ascii "+CWMODE:1\r\nOK\r\n",
           ascii "+CWJAP:\"home\",\"aa\",6,-40,1,1,3,0,1\r\nOK\r\n"], [], []⟩ : ST).writes
          ++ ws ∧
      ∀ w ∈ ws, (ascii "AT+CWJAP=").isPrefixOf w = false :=
  join_ap_short_circuit
    ⟨[ascii "+CWMODE:1\r\nOK\r\n",
      ascii "+CWJAP:\"home\",\"aa\",6,-40,1,1,3,0,1\r\nOK\r\n"], [], []⟩
    ⟨[ascii "+CWJAP:\"home\",\"aa\",6,-40,1,1,3,0,1\r\nOK\r\n"],
     [cwmodeQuery ++ crlf], [ascii "+CWMODE:1\r\nOK\r\n"]⟩
    ⟨[], [cwmodeQuery ++ crlf, cwjapQuery ++ crlf],
     [ascii "+CWMODE:1\r\nOK\r\n",
      ascii "+CWJAP:\"home\",\"aa\",6,-40,1,1,3,0,1\r\nOK\r\n"]⟩
    (ascii "home") (ascii "pw")
    (ascii "+CWJAP:\"home\",\"aa\",6,-40,1,1,3,0,1\r\n")
    ⟨ascii "home", ascii "aa", 6, -40, 1, 1, 3, 0, 1⟩
    rfl rfl rfl rfl

/-- C5 counterexample: the mode query succeeds but every `AT+CWLAP`
attempt times out with no sentinel; `send` then raises a plain
`Exception`, which `except RuntimeError` does not catch, so `get_AP`
propagates the error instead of silently retrying and returning `[]`. -/
theorem get_AP_timeout_cex :
    (get_AP ⟨[ascii "+CWMODE:1\r\nOK\r\n"], [], []⟩ 3).1 = .error .exception ∧
    (get_AP ⟨[ascii "+CWMODE:1\r\nOK\r\n"], [], []⟩ 3).1 ≠ .ok [] := by
  decide

/-- C5 amended: each `get_AP` attempt is retried silently only on
`RuntimeError` (a mode-query reply without the `+CWMODE:` landmark);
exhausting the retries this way returns the empty list; any other
exception — in particular the plain `Exception` raised when a command
exchange times out without a success sentinel — propagates out of
`get_AP`; a successful scan returns the parsed records. -/
theorem get_AP_retry_spec :
    (∀ (n : Nat) (st st1 : ST), getAPtry st = (.error .runtimeError, st1) →
       getAPloop (n + 1) st = getAPloop n st1) ∧
    (∀ st : ST, getAPloop 0 st = (.ok [], st)) ∧
    (∀ (n : Nat) (st st1 : ST) (e : PyErr), getAPtry st = (.error e, st1) →
       e ≠ .runtimeError → getAPloop (n + 1) st = (.error e, st1)) ∧
    (∀ (n : Nat) (st st1 : ST) (lines : List Bytes),
       getAPtry st = (.ok lines, st1) →
       getAPloop (n + 1) st = (.ok (parseRouters lines), st1)) := by
  refine ⟨?_, fun st => rfl, ?_, ?_⟩
  · intro n st st1 h
    rw [getAPloop, h]
  · intro n st st1 e h hne
    cases e with
    | runtimeError => exact absurd rfl hne
    | exception => rw [getAPloop, h]
    | valueError => rw [getAPloop, h]
    | indexError => rw [getAPloop, h]
  · intro n st st1 lines h
    rw [getAPloop, h]

/-- Witness for C5's amended statement: a bad mode reply is retried, zero
retries yield `[]`, a timeout propagates as a plain exception, and a good
scan returns its records. -/
theorem get_AP_retry_spec_w :
    getAPloop 3 ⟨[ascii "nomode\r\nOK\r\n"], [], []⟩ =
      getAPloop 2 ⟨[], [cwmodeQuery ++ crlf], [ascii "nomode\r\nOK\r\n"]⟩ ∧
    getAPloop 0 ⟨[], [], []⟩ = (.ok [], ⟨[], [], []⟩) ∧
    getAPloop 3 ⟨[], [], []⟩ =
      (.error .exception,
       ⟨[], List.replicate 3 (cwmodeQuery ++ crlf), [[], [], []]⟩) ∧
    getAPloop 3 ⟨[ascii "+CWMODE:1\r\nOK\r\n",
                  ascii "+CWLAP:(3,\"N\",-55,\"m\",6)\r\nOK\r\n"], [], []⟩ =
      (.ok (parseRouters [ascii "+CWLAP:(3,\"N\",-55,\"m\",6)", []]),
       ⟨[], [cwmodeQuery ++ crlf, cwlapQuery ++ crlf],
        [ascii "+CWMODE:1\r\nOK\r\n",
         ascii "+CWLAP:(3,\"N\",-55,\"m\",6)\r\nOK\r\n"]⟩) :=
  ⟨get_AP_retry_spec.1 2 ⟨[ascii "nomode\r\nOK\r\n"], [], []⟩
      ⟨[], [cwmodeQuery ++ crlf], [ascii "nomode\r\nOK\r\n"]⟩ rfl,
   get_AP_retry_spec.2.1 ⟨[], [], []⟩,
   get_AP_retry_spec.2.2.1 2 ⟨[], [], []⟩
      ⟨[], List.replicate 3 (cwmodeQuery ++ crlf), [[], [], []]⟩ .exception
      rfl (by decide),
   get_AP_retry_spec.2.2.2 2
      ⟨[ascii "+CWMODE:1\r\nOK\r\n",
        ascii "+CWLAP:(3,\"N\",-55,\"m\",6)\r\nOK\r\n"], [], []⟩
      ⟨[], [cwmodeQuery ++ crlf, cwlapQuery ++ crlf],
       [ascii "+CWMODE:1\r\nOK\r\n",
        ascii "+CWLAP:(3,\"N\",-55,\"m\",6)\r\nOK\r\n"]⟩
      [ascii "+CWLAP:(3,\"N\",-55,\"m\",6)", []] rfl⟩

/-- C6 counterexample: the device is not connected and every join attempt
fails with the failure sentinel; `send` then raises a plain `Exception`
from inside `join_ap`, which `except RuntimeError` in `connect` does not
catch, so `connect` propagates the exception rather than returning a
boolean. -/
theorem connect_cex :
    (connect ⟨[ascii "STATUS:5\r\nOK\r\n", ascii "+CWMODE:1\r\nOK\r\n",
               ascii "\r\nOK\r\n", ascii "ERROR\r\n", ascii "ERROR\r\n",
               ascii "ERROR\r\n"], [], []⟩ (ascii "home") (ascii "pw")).1 =
      .error .exception ∧
    ∀ b : Option Bool,
      (connect ⟨[ascii "STATUS:5\r\nOK\r\n", ascii "+CWMODE:1\r\nOK\r\n",
                 ascii "\r\nOK\r\n", ascii "ERROR\r\n", ascii "ERROR\r\n",
                 ascii "ERROR\r\n"], [], []⟩ (ascii "home") (ascii "pw")).1 ≠
        .ok b := by
  decide

/-- C6 amended: `connect` returns `True` as soon as the device reports
being connected or a `join_ap` call returns; only a `RuntimeError` is
caught and retried (up to 3 times); any other exception — in particular
the plain `Exception` a failed join or a send timeout raises — escapes
`connect` uncaught; and when all retries are consumed by caught errors
the loop falls through and `connect` returns Python `None`, not a
boolean. -/
theorem connect_spec :
    (∀ (st st1 : ST) (ssid pwd : Bytes), is_connected st = (.ok true, st1) →
       connect st ssid pwd = (.ok (some true), st1)) ∧
    (∀ (st st1 st2 : ST) (ssid pwd : Bytes) (info : CWJAP),
       is_connected st = (.ok false, st1) →
       join_ap st1 ssid pwd = (.ok info, st2) →
       connect st ssid pwd = (.ok (some true), st2)) ∧
    (∀ (ssid pwd : Bytes) (st : ST), connectLoop ssid pwd 0 st = (.ok none, st)) ∧
    (∀ (n : Nat) (st st1 : ST) (ssid pwd : Bytes),
       is_connected st = (.error .runtimeError, st1) →
       connectLoop ssid pwd (n + 1) st = connectLoop ssid pwd n st1) ∧
    (∀ (n : Nat) (st st1 st2 : ST) (ssid pwd : Bytes),
       is_connected st = (.ok false, st1) →
       join_ap st1 ssid pwd = (.error .runtimeError, st2) →
       connectLoop ssid pwd (n + 1) st = connectLoop ssid pwd n st2) ∧
    (∀ (st st1 : ST) (ssid pwd : Bytes) (e : PyErr),
       is_connected st = (.error e, st1) → e ≠ .runtimeError →
       connect st ssid pwd = (.error e, st1)) ∧
    (∀ (st st1 st2 : ST) (ssid pwd : Bytes) (e : PyErr),
       is_connected st = (.ok false, st1) →
       join_ap st1 ssid pwd = (.error e, st2) → e ≠ .runtimeError →
       connect st ssid pwd = (.error e, st2)) := by
  refine ⟨?_, ?_, fun ssid pwd st => rfl, ?_, ?_, ?_, ?_⟩
  · intro st st1 ssid pwd h
    show connectLoop ssid pwd (2 + 1) st = _
    rw [connectLoop, h]
  · intro st st1 st2 ssid pwd info h1 h2
    show connectLoop ssid pwd (2 + 1) st = _
    rw [connectLoop, h1]
    dsimp only
    rw [h2]
  · intro n st st1 ssid pwd h
    rw [connectLoop, h]
  · intro n st st1 st2 ssid pwd h1 h2
    rw [connectLoop, h1]
    dsimp only
    rw [h2]
  · intro st st1 ssid pwd e h hne
    show connectLoop ssid pwd (2 + 1) st = _
    cases e with
    | runtimeError => exact absurd rfl hne
    | exception => rw [connectLoop, h]
    | valueError => rw [connectLoop, h]
    | indexError => rw [connectLoop, h]
  · intro st st1 st2 ssid pwd e h1 h2 hne
    show connectLoop ssid pwd (2 + 1) st = _
    rw [connectLoop, h1]
    dsimp only
    cases e with
    | runtimeError => exact absurd rfl hne
    | exception => rw [h2]
    | valueError => rw [h2]
    | indexError => rw [h2]

/-- Witness for C6's amended statement: an already-connected device
yields `True`; a status-query timeout escapes as a plain exception; and
a run whose three attempts each end in a caught `RuntimeError` (a mode
reply without the `+CWMODE:` landmark inside `join_ap`) exhausts the
loop and returns `None`. -/
theorem connect_spec_w :
    connect ⟨[ascii "STATUS:2\r\nOK\r\n"], [], []⟩ (ascii "home") (ascii "pw") =
      (.ok (some true),
       ⟨[], [cipstatusQuery ++ crlf], [ascii "STATUS:2\r\nOK\r\n"]⟩) ∧
    connectLoop (ascii "home") (ascii "pw") 0 ⟨[], [], []⟩ =
      (.ok none, ⟨[], [], []⟩) ∧
    connect ⟨[], [], []⟩ (ascii "home") (ascii "pw") =
      (.error .exception,
       ⟨[], List.replicate 3 (cipstatusQuery ++ crlf), [[], [], []]⟩) ∧
    connect ⟨[ascii "STATUS:5\r\nOK\r\n", ascii "nomode\r\nOK\r\n",
              ascii "STATUS:5\r\nOK\r\n", ascii "nomode\r\nOK\r\n",
              ascii "STATUS:5\r\nOK\r\n", ascii "nomode\r\nOK\r\n"], [], []⟩
        (ascii "home") (ascii "pw") =
      (.ok none,
       ⟨[], [cipstatusQuery ++ crlf, cwmodeQuery ++ crlf,
             cipstatusQuery ++ crlf, cwmodeQuery ++ crlf,
             cipstatusQuery ++ crlf, cwmodeQuery ++ crlf],
        [ascii "STATUS:5\r\nOK\r\n", ascii "nomode\r\nOK\r\n",
         ascii "STATUS:5\r\nOK\r\n", ascii "nomode\r\nOK\r\n",
         ascii "STATUS:5\r\nOK\r\n", ascii "nomode\r\nOK\r\n"]⟩) :=
  ⟨connect_spec.1 ⟨[ascii "STATUS:2\r\nOK\r\n"], [], []⟩
      ⟨[], [cipstatusQuery ++ crlf], [ascii "STATUS:2\r\nOK\r\n"]⟩
      (ascii "home") (ascii "pw") rfl,
   connect_spec.2.2.1 (ascii "home") (ascii "pw") ⟨[], [], []⟩,
   connect_spec.2.2.2.2.2.1 ⟨[], [], []⟩
      ⟨[], List.replicate 3 (cipstatusQuery ++ crlf), [[], [], []]⟩
      (ascii "home") (ascii "pw") .exception rfl (by decide),
   (connect_spec.2.2.2.2.1 2
      ⟨[ascii "STATUS:5\r\nOK\r\n", ascii "nomode\r\nOK\r\n",
        ascii "STATUS:5\r\nOK\r\n", ascii "nomode\r\nOK\r\n",
        ascii "STATUS:5\r\nOK\r\n", ascii "nomode\r\nOK\r\n"], [], []⟩
      ⟨[ascii "nomode\r\nOK\r\n", ascii "STATUS:5\r\nOK\r\n",
        ascii "nomode\r\nOK\r\n", ascii "STATUS:5\r\nOK\r\n",
        ascii "nomode\r\nOK\r\n"],
       [cipstatusQuery ++ crlf], [ascii "STATUS:5\r\nOK\r\n"]⟩
      ⟨[ascii "STATUS:5\r\nOK\r\n", ascii "nomode\r\nOK\r\n",
        ascii "STATUS:5\r\nOK\r\n", ascii "nomode\r\nOK\r\n"],
       [cipstatusQuery ++ crlf, cwmodeQuery ++ crlf],
       [ascii "STATUS:5\r\nOK\r\n", ascii "nomode\r\nOK\r\n"]⟩
      (ascii "home") (ascii "pw") rfl rfl).trans
    ((connect_spec.2.2.2.2.1 1
        ⟨[ascii "STATUS:5\r\nOK\r\n", ascii "nomode\r\nOK\r\n",
          ascii "STATUS:5\r\nOK\r\n", ascii "nomode\r\nOK\r\n"],
         [cipstatusQuery ++ crlf, cwmodeQuery ++ crlf],
         [ascii "STATUS:5\r\nOK\r\n", ascii "nomode\r\nOK\r\n"]⟩
        ⟨[ascii "nomode\r\nOK\r\n", ascii "STATUS:5\r\nOK\r\n",
          ascii "nomode\r\nOK\r\n"],
         [cipstatusQuery ++ crlf, cwmodeQuery ++ crlf, cipstatusQuery ++ crlf],
         [ascii "STATUS:5\r\nOK\r\n", ascii "nomode\r\nOK\r\n",
          ascii "STATUS:5\r\nOK\r\n"]⟩
        ⟨[ascii "STATUS:5\r\nOK\r\n", ascii "nomode\r\nOK\r\n"],
         [cipstatusQuery ++ crlf, cwmodeQuery ++ crlf,
          cipstatusQuery ++ crlf, cwmodeQuery ++ crlf],
         [ascii "STATUS:5\r\nOK\r\n", ascii "nomode\r\nOK\r\n",
          ascii "STATUS:5\r\nOK\r\n", ascii "nomode\r\nOK\r\n"]⟩
        (ascii "home") (ascii "pw") rfl rfl).trans
      ((connect_spec.2.2.2.2.1 0
          ⟨[ascii "STATUS:5\r\nOK\r\n", ascii "nomode\r\nOK\r\n"],
           [cipstatusQuery ++ crlf, cwmodeQuery ++ crlf,
            cipstatusQuery ++ crlf, cwmodeQuery ++ crlf],
           [ascii "STATUS:5\r\nOK\r\n", ascii "nomode\r\nOK\r\n",
            ascii "STATUS:5\r\nOK\r\n", ascii "nomode\r\nOK\r\n"]⟩
          ⟨[ascii "nomode\r\nOK\r\n"],
           [cipstatusQuery ++ crlf, cwmodeQuery ++ crlf,
            cipstatusQuery ++ crlf, cwmodeQuery ++ crlf,
            cipstatusQuery ++ crlf],
           [ascii "STATUS:5\r\nOK\r\n", ascii "nomode\r\nOK\r\n",
            ascii "STATUS:5\r\nOK\r\n", ascii "nomode\r\nOK\r\n",
            ascii "STATUS:5\r\nOK\r\n"]⟩
          ⟨[], [cipstatusQuery ++ crlf, cwmodeQuery ++ crlf,
                cipstatusQuery ++ crlf, cwmodeQuery ++ crlf,
                cipstatusQuery ++ crlf, cwmodeQuery ++ crlf],
           [ascii "STATUS:5\r\nOK\r\n", ascii "nomode\r\nOK\r\n",
            ascii "STATUS:5\r\nOK\r\n", ascii "nomode\r\nOK\r\n",
            ascii "STATUS:5\r\nOK\r\n", ascii "nomode\r\nOK\r\n"]⟩
          (ascii "home") (ascii "pw") rfl rfl).trans
        (connect_spec.2.2.1 (ascii "home") (ascii "pw")
          ⟨[], [cipstatusQuery ++ crlf, cwmodeQuery ++ crlf,
                cipstatusQuery ++ crlf, cwmodeQuery ++ crlf,
                cipstatusQuery ++ crlf, cwmodeQuery ++ crlf],
           [ascii "STATUS:5\r\nOK\r\n", ascii "nomode\r\nOK\r\n",
            ascii "STATUS:5\r\nOK\r\n", ascii "nomode\r\nOK\r\n",
            ascii "STATUS:5\r\nOK\r\n", ascii "nomode\r\nOK\r\n"]⟩)))⟩

/-- C10: every `ping` call first runs the complete `AT+CIPV6=1` exchange
of `enable_ipv6`: if that exchange never sees the success sentinel, `ping`
fails with the same exception after writing only the three IPv6 command
attempts (no `AT+PING` command is written); if it succeeds, the transport
trace holds at least one IPv6 command write strictly before all the
`AT+PING` command writes. -/
theorem ping_enables_ipv6_first (st : ST) (host : Bytes) :
    (∀ (e : PyErr) (st1 : ST), enable_ipv6 st = (.error e, st1) →
       ping st host = (.error e, st1) ∧
       st1.writes = st.writes ++ List.replicate 3 (cipv6Cmd ++ crlf)) ∧
    (∀ st1 : ST, enable_ipv6 st = (.ok (), st1) →
       ∃ k kp, 1 ≤ k ∧
         st1.writes = st.writes ++ List.replicate k (cipv6Cmd ++ crlf) ∧
         (ping st host).2.writes =
           st.writes ++ List.replicate k (cipv6Cmd ++ crlf) ++
             List.replicate kp (pingCmd host ++ crlf)) := by
  obtain ⟨k, hk, hknone, hksome⟩ := sendST_writes st cipv6Cmd
  constructor
  · intro e st1 h
    refine ⟨by unfold ping; rw [h], ?_⟩
    unfold enable_ipv6 at h
    rcases hs : sendST st cipv6Cmd 3 with ⟨r, s⟩
    rw [hs] at h hk hknone
    cases r with
    | none =>
      simp only [Prod.mk.injEq] at h
      obtain ⟨-, rfl⟩ := h
      rw [hk, hknone rfl]
    | some u => simp at h
  · intro st1 h
    unfold enable_ipv6 at h
    rcases hs : sendST st cipv6Cmd 3 with ⟨r, s⟩
    rw [hs] at h hk hksome
    cases r with
    | none => simp at h
    | some u =>
      simp only [Prod.mk.injEq] at h
      obtain ⟨-, rfl⟩ := h
      dsimp only at hk
      have he : enable_ipv6 st = (.ok (), s) := by
        unfold enable_ipv6; rw [hs]
      obtain ⟨kp, hkp, -, -⟩ := sendST_writes s (pingCmd host)
      rcases hp : sendST s (pingCmd host) 3 with ⟨r2, s2⟩
      rw [hp] at hkp
      refine ⟨k, kp, hksome u rfl, hk, ?_⟩
      have hpw : (ping st host).2 = s2 := by
        unfold ping
        rw [he]
        dsimp only
        rw [hp]
        cases r2 <;> rfl
      rw [hpw]
      dsimp only at hkp
      rw [hkp, hk]

/-- Witness for C10: a dead transport makes `ping` fail after three IPv6
command writes and no ping write; a live one pings after the IPv6
exchange. -/
theorem ping_enables_ipv6_first_w :
    (ping ⟨[], [], []⟩ (ascii "example.org") =
       (.error .exception,
        ⟨[], List.replicate 3 (cipv6Cmd ++ crlf), [[], [], []]⟩) ∧
     (⟨[], List.replicate 3 (cipv6Cmd ++ crlf), [[], [], []]⟩ : ST).writes =
       (⟨[], [], []⟩ : ST).writes ++ List.replicate 3 (cipv6Cmd ++ crlf)) ∧
    ∃ k kp, 1 ≤ k ∧
      (⟨[ascii "+PING:23\r\nOK\r\n"], [cipv6Cmd ++ crlf],
        [ascii "OK\r\n"]⟩ : ST).writes =
        (⟨[ascii "OK\r\n", ascii "+PING:23\r\nOK\r\n"], [], []⟩ : ST).writes ++
          List.replicate k (cipv6Cmd ++ crlf) ∧
      (ping ⟨[ascii "OK\r\n", ascii "+PING:23\r\nOK\r\n"], [], []⟩
          (ascii "example.org")).2.writes =
        (⟨[ascii "OK\r\n", ascii "+PING:23\r\nOK\r\n"], [], []⟩ : ST).writes ++
          List.replicate k (cipv6Cmd ++ crlf) ++
          List.replicate kp (pingCmd (ascii "example.org") ++ crlf) :=
  ⟨(ping_enables_ipv6_first ⟨[], [], []⟩ (ascii "example.org")).1 .exception
      ⟨[], List.replicate 3 (cipv6Cmd ++ crlf), [[], [], []]⟩ rfl,
   (ping_enables_ipv6_first ⟨[ascii "OK\r\n", ascii "+PING:23\r\nOK\r\n"], [], []⟩
      (ascii "example.org")).2
      ⟨[ascii "+PING:23\r\nOK\r\n"], [cipv6Cmd ++ crlf], [ascii "OK\r\n"]⟩ rfl⟩

